import Mathlib

/-!
Shallow embedding of `intellifire4py/unified_fireplace.py`: the `UnifiedFireplace`
facade over a local and a cloud backend, its read/control mode selection, the
read-mode handoff protocol, and the aggregate builders.

The two backend classes (`IntelliFireAPILocal`, `IntelliFireAPICloud`) and the
pydantic models are part of the repository but not of the provided sources; they
are modelled from the spec as mock collaborators exposing a data snapshot,
start/stop background polling and overwrite-data, together with a call trace and
a fault-injection function so that exception behaviour of the facade is
observable.  Asynchronous methods are modelled as pure state transformers (the
spec's single-threaded cooperative model); a raised exception is an explicit
`raised` flag on the result.
-/

/-- Modelled from the spec: the two-valued mode enumeration
(`intellifire4py.const.IntelliFireApiMode`), with values LOCAL and CLOUD, used
independently for the read and the control selection. -/
inductive IntelliFireApiMode
  | LOCAL
  | CLOUD
deriving DecidableEq

/-- Modelled from the spec: the poll-data snapshot
(`intellifire4py.model.IntelliFirePollData`).  Its content is opaque to this
core, so it is a wrapper around a single numeric payload. -/
structure IntelliFirePollData where
  raw : Nat
deriving DecidableEq

/-- Modelled from the spec: the observable state of one backend collaborator —
its current data snapshot and whether background polling is running. -/
structure Backend where
  data : IntelliFirePollData
  polling : Bool
deriving DecidableEq

/-- Modelled from the spec: a freshly constructed backend is idle (the raw
facade constructor "leaves both backends idle") and holds a default snapshot. -/
def Backend.init : Backend := { data := ⟨0⟩, polling := false }

/-- Modelled from the spec: `stop background polling()` halts periodic refresh
(idempotent if already stopped). -/
def Backend.stop_background_polling (b : Backend) : Backend :=
  { b with polling := false }

/-- Modelled from the spec: `start background polling()` begins periodic refresh
(idempotent if already running). -/
def Backend.start_background_polling (b : Backend) : Backend :=
  { b with polling := true }

/-- Modelled from the spec: `overwrite data(snapshot)` replaces the backend's
current snapshot with the caller-supplied one. -/
def Backend.overwrite_data (b : Backend) (d : IntelliFirePollData) : Backend :=
  { b with data := d }

/-- Which of the two backend instances of a facade a call is addressed to. -/
inductive ApiSide
  | localSide
  | cloudSide
deriving DecidableEq

/-- An observable backend call made by the facade: the mock-backend call trace
of the spec's testable properties. -/
inductive CallEvent
  | stop_background_polling (s : ApiSide)
  | overwrite_data (s : ApiSide) (d : IntelliFirePollData)
  | start_background_polling (s : ApiSide)
deriving DecidableEq

/-- Fault model for the mock backends: which attempted call raises an
exception.  A faulting call is recorded in the trace but has no state effect. -/
def FaultSpec : Type := CallEvent → Bool

/-- The fault model in which every backend call succeeds. -/
def noFaults : FaultSpec := fun _ => false

/-- A fault model in which every stop-background-polling call raises. -/
def stopFaults : FaultSpec := fun e =>
  match e with
  | CallEvent.stop_background_polling _ => true
  | _ => false

/-- A fault model in which every start-background-polling call raises. -/
def startFaults : FaultSpec := fun e =>
  match e with
  | CallEvent.start_background_polling _ => true
  | _ => false

/-- Modelled from the spec: the Common Fireplace Record
(`intellifire4py.model.IntelliFireCommonFireplaceData`): the identity and
credential fields plus the two mutable mode fields. -/
structure IntelliFireCommonFireplaceData where
  ip_address : String
  api_key : String
  serial : String
  auth_cookie : String
  user_id : String
  web_client_id : String
  read_mode : IntelliFireApiMode
  control_mode : IntelliFireApiMode
deriving DecidableEq

/-- Modelled from the spec: the User-Level Record
(`intellifire4py.model.IntelliFireUserData`), holding the ordered collection of
Common Fireplace Records of one account. -/
structure IntelliFireUserData where
  fireplaces : List IntelliFireCommonFireplaceData
deriving DecidableEq

/-- State of a `UnifiedFireplace` facade: the owned record, the two in-memory
mode selections, and the two backend instances (`unified_fireplace.py`,
class attributes, lines 30-37). -/
structure UnifiedFireplace where
  _fireplace_data : IntelliFireCommonFireplaceData
  _read_mode : IntelliFireApiMode
  _control_mode : IntelliFireApiMode
  _local_api : Backend
  _cloud_api : Backend
deriving DecidableEq

/-- `UnifiedFireplace.__init__` (lines 39-79): stores the record and both
requested modes and instantiates both backends idle; no polling is started. -/
def UnifiedFireplace.mk_raw (fireplace_data : IntelliFireCommonFireplaceData)
    (read_mode control_mode : IntelliFireApiMode) : UnifiedFireplace :=
  { _control_mode := control_mode
    _read_mode := read_mode
    _fireplace_data := fireplace_data
    _local_api := Backend.init
    _cloud_api := Backend.init }

/-- `ip_address` property (lines 86-96). -/
def UnifiedFireplace.ip_address (f : UnifiedFireplace) : String :=
  f._fireplace_data.ip_address

/-- `api_key` property (lines 98-109). -/
def UnifiedFireplace.api_key (f : UnifiedFireplace) : String :=
  f._fireplace_data.api_key

/-- `serial` property (lines 111-121). -/
def UnifiedFireplace.serial (f : UnifiedFireplace) : String :=
  f._fireplace_data.serial

/-- `user_id` property (lines 123-134). -/
def UnifiedFireplace.user_id (f : UnifiedFireplace) : String :=
  f._fireplace_data.user_id

/-- `auth_cookie` property (lines 136-146). -/
def UnifiedFireplace.auth_cookie (f : UnifiedFireplace) : String :=
  f._fireplace_data.auth_cookie

/-- `web_client_id` property (lines 148-159). -/
def UnifiedFireplace.web_client_id (f : UnifiedFireplace) : String :=
  f._fireplace_data.web_client_id

/-- `read_api` property (lines 161-173): the local backend when the read mode is
LOCAL, the cloud backend otherwise. -/
def UnifiedFireplace.read_api (f : UnifiedFireplace) : Backend :=
  if f._read_mode = IntelliFireApiMode.LOCAL then f._local_api else f._cloud_api

/-- `control_api` property (lines 175-187): the local backend when the control
mode is LOCAL, the cloud backend otherwise. -/
def UnifiedFireplace.control_api (f : UnifiedFireplace) : Backend :=
  if f._control_mode = IntelliFireApiMode.LOCAL then f._local_api else f._cloud_api

/-- `read_mode` property (lines 189-197). -/
def UnifiedFireplace.read_mode (f : UnifiedFireplace) : IntelliFireApiMode :=
  f._read_mode

/-- `control_mode` property (lines 234-242). -/
def UnifiedFireplace.control_mode (f : UnifiedFireplace) : IntelliFireApiMode :=
  f._control_mode

/-- `_cloud_data` property (lines 256-263). -/
def UnifiedFireplace._cloud_data (f : UnifiedFireplace) : IntelliFirePollData :=
  f._cloud_api.data

/-- `_local_data` property (lines 265-272). -/
def UnifiedFireplace._local_data (f : UnifiedFireplace) : IntelliFirePollData :=
  f._local_api.data

/-- `data` property (lines 274-299): the local snapshot when the read mode is
LOCAL, the cloud snapshot otherwise. -/
def UnifiedFireplace.data (f : UnifiedFireplace) : IntelliFirePollData :=
  if f.read_mode = IntelliFireApiMode.LOCAL then f._local_data else f._cloud_data

/-- Result of an effectful facade operation: the backend calls attempted (in
order), the resulting facade state, and whether an exception was raised. -/
structure SwitchResult where
  trace : List CallEvent
  state : UnifiedFireplace
  raised : Bool
deriving DecidableEq

/-- `_switch_read_mode` (lines 216-232): stop polling on the backend being
deactivated, seed the backend being activated with the deactivated backend's
snapshot, start polling on it, and only then commit the mode to the in-memory
selection and to the owned record's `read_mode` field.  A fault at any of the
three calls aborts the sequence there with `raised := true` (the source has no
handler here, so the exception propagates to this function's caller). -/
def UnifiedFireplace._switch_read_mode (faults : FaultSpec) (f : UnifiedFireplace)
    (mode : IntelliFireApiMode) : SwitchResult :=
  match mode with
  | IntelliFireApiMode.LOCAL =>
    let e1 := CallEvent.stop_background_polling ApiSide.cloudSide
    if faults e1 then { trace := [e1], state := f, raised := true } else
    let f1 := { f with _cloud_api := f._cloud_api.stop_background_polling }
    let e2 := CallEvent.overwrite_data ApiSide.localSide f1._cloud_api.data
    if faults e2 then { trace := [e1, e2], state := f1, raised := true } else
    let f2 := { f1 with _local_api := f1._local_api.overwrite_data f1._cloud_api.data }
    let e3 := CallEvent.start_background_polling ApiSide.localSide
    if faults e3 then { trace := [e1, e2, e3], state := f2, raised := true } else
    let f3 := { f2 with _local_api := f2._local_api.start_background_polling }
    { trace := [e1, e2, e3]
      state := { f3 with _read_mode := mode
                         _fireplace_data := { f3._fireplace_data with read_mode := mode } }
      raised := false }
  | IntelliFireApiMode.CLOUD =>
    let e1 := CallEvent.stop_background_polling ApiSide.localSide
    if faults e1 then { trace := [e1], state := f, raised := true } else
    let f1 := { f with _local_api := f._local_api.stop_background_polling }
    let e2 := CallEvent.overwrite_data ApiSide.cloudSide f1._local_api.data
    if faults e2 then { trace := [e1, e2], state := f1, raised := true } else
    let f2 := { f1 with _cloud_api := f1._cloud_api.overwrite_data f1._local_api.data }
    let e3 := CallEvent.start_background_polling ApiSide.cloudSide
    if faults e3 then { trace := [e1, e2, e3], state := f2, raised := true } else
    let f3 := { f2 with _cloud_api := f2._cloud_api.start_background_polling }
    { trace := [e1, e2, e3]
      state := { f3 with _read_mode := mode
                         _fireplace_data := { f3._fireplace_data with read_mode := mode } }
      raised := false }

/-- `set_read_mode` (lines 199-214): a no-op when the requested mode equals the
current one; otherwise runs `_switch_read_mode` inside a try/except that logs
and swallows any exception, so the caller always gets a normal return (the
partial state and trace of the failed switch are kept). -/
def UnifiedFireplace.set_read_mode (faults : FaultSpec) (f : UnifiedFireplace)
    (mode : IntelliFireApiMode) : List CallEvent × UnifiedFireplace :=
  if f._read_mode = mode then ([], f)
  else
    let r := UnifiedFireplace._switch_read_mode faults f mode
    (r.trace, r.state)

/-- `set_control_mode` (lines 244-254): pure bookkeeping — set the in-memory
control mode and mirror it onto the owned record; no backend call is made and
no exception path exists. -/
def UnifiedFireplace.set_control_mode (f : UnifiedFireplace)
    (mode : IntelliFireApiMode) : List CallEvent × UnifiedFireplace :=
  ([], { f with _control_mode := mode
                _fireplace_data := { f._fireplace_data with control_mode := mode } })

/-- `create_async_instance` (lines 301-328), the primary builder: raw
construction followed by one `_switch_read_mode` call on the configured read
mode; the switch is not wrapped in any handler, so a fault propagates
(`raised := true` means the caller of the builder sees the exception and no
instance). -/
def UnifiedFireplace.create_async_instance (faults : FaultSpec)
    (fireplace_data : IntelliFireCommonFireplaceData)
    (read_mode control_mode : IntelliFireApiMode) : SwitchResult :=
  let inst := UnifiedFireplace.mk_raw fireplace_data read_mode control_mode
  UnifiedFireplace._switch_read_mode faults inst inst._read_mode

/-- `build_fireplace_from_common_data` (lines 330-334): delegates to the primary
builder; the source passes no mode arguments, so the declared defaults
LOCAL/LOCAL apply. -/
def UnifiedFireplace.build_fireplace_from_common_data (faults : FaultSpec)
    (common_data : IntelliFireCommonFireplaceData) : SwitchResult :=
  UnifiedFireplace.create_async_instance faults common_data
    IntelliFireApiMode.LOCAL IntelliFireApiMode.LOCAL

/-- `build_fireplaces_from_user_data` (lines 336-368): one primary-builder task
per record, gathered — traces are kept per facade (each facade owns disjoint
mock backends), the result list matches the input order, and if any single
construction raises the whole batch raises and no partial list is returned. -/
def UnifiedFireplace.build_fireplaces_from_user_data (faults : FaultSpec)
    (user_data : IntelliFireUserData) (read_mode control_mode : IntelliFireApiMode) :
    List (List CallEvent) × Except Unit (List UnifiedFireplace) :=
  let results := user_data.fireplaces.map
    (fun fp => UnifiedFireplace.create_async_instance faults fp read_mode control_mode)
  (results.map SwitchResult.trace,
   if results.all (fun r => !r.raised) then Except.ok (results.map SwitchResult.state)
   else Except.error ())

/-- `build_fireplace_direct` (lines 370-418): assembles a Common Fireplace
Record from the discrete fields (including the requested modes) and delegates
to the primary builder.  The source calls `create_async_instance` with the
record only, not forwarding `read_mode`/`control_mode`, so the declared
defaults LOCAL/LOCAL apply regardless of the requested modes. -/
def UnifiedFireplace.build_fireplace_direct (faults : FaultSpec)
    (ip_address api_key serial auth_cookie user_id web_client_id : String)
    (read_mode control_mode : IntelliFireApiMode) : SwitchResult :=
  let common_fireplace : IntelliFireCommonFireplaceData :=
    { ip_address := ip_address
      api_key := api_key
      serial := serial
      auth_cookie := auth_cookie
      user_id := user_id
      web_client_id := web_client_id
      read_mode := read_mode
      control_mode := control_mode }
  UnifiedFireplace.create_async_instance faults common_fireplace
    IntelliFireApiMode.LOCAL IntelliFireApiMode.LOCAL

/-- `build_fireplace_from_common` (lines 420-438): same delegation as
`build_fireplace_from_common_data`, kept as a naming convenience. -/
def UnifiedFireplace.build_fireplace_from_common (faults : FaultSpec)
    (common_fireplace : IntelliFireCommonFireplaceData) : SwitchResult :=
  UnifiedFireplace.create_async_instance faults common_fireplace
    IntelliFireApiMode.LOCAL IntelliFireApiMode.LOCAL

/-- The backend side designated by a mode. -/
def sideOf : IntelliFireApiMode → ApiSide
  | IntelliFireApiMode.LOCAL => ApiSide.localSide
  | IntelliFireApiMode.CLOUD => ApiSide.cloudSide

/-- The mode other than the given one. -/
def otherMode : IntelliFireApiMode → IntelliFireApiMode
  | IntelliFireApiMode.LOCAL => IntelliFireApiMode.CLOUD
  | IntelliFireApiMode.CLOUD => IntelliFireApiMode.LOCAL

/-- A concrete Common Fireplace Record (the spec's accessor pass-through example
values) used to instantiate universally quantified theorems. -/
def sampleRecord : IntelliFireCommonFireplaceData :=
  { ip_address := "10.0.0.5"
    api_key := "abc"
    serial := "SN1"
    auth_cookie := "CK1"
    user_id := "U1"
    web_client_id := "W1"
    read_mode := IntelliFireApiMode.CLOUD
    control_mode := IntelliFireApiMode.LOCAL }

/-- A concrete facade currently reading from the cloud backend, with distinct
backend snapshots so that the seeding step is observable. -/
def sampleCloudFacade : UnifiedFireplace :=
  { _fireplace_data := sampleRecord
    _read_mode := IntelliFireApiMode.CLOUD
    _control_mode := IntelliFireApiMode.LOCAL
    _local_api := { data := ⟨3⟩, polling := false }
    _cloud_api := { data := ⟨7⟩, polling := true } }

/-- A concrete facade currently reading from the local backend. -/
def sampleLocalFacade : UnifiedFireplace :=
  { _fireplace_data := { sampleRecord with read_mode := IntelliFireApiMode.LOCAL }
    _read_mode := IntelliFireApiMode.LOCAL
    _control_mode := IntelliFireApiMode.LOCAL
    _local_api := { data := ⟨5⟩, polling := true }
    _cloud_api := { data := ⟨9⟩, polling := false } }

/-- Helper: a switch that raised left both the in-memory read mode and the
record's `read_mode` field at their prior values (the commit in the last two
lines of `_switch_read_mode` was not reached). -/
theorem switch_raised_preserves_read_mode (faults : FaultSpec) (f : UnifiedFireplace)
    (mode : IntelliFireApiMode)
    (h : (UnifiedFireplace._switch_read_mode faults f mode).raised = true) :
    (UnifiedFireplace._switch_read_mode faults f mode).state._read_mode = f._read_mode ∧
    (UnifiedFireplace._switch_read_mode faults f mode).state._fireplace_data.read_mode =
      f._fireplace_data.read_mode := by
  cases mode <;>
    simp only [UnifiedFireplace._switch_read_mode] at h ⊢ <;>
    split_ifs at h ⊢ <;> simp_all

/-- C1: from a facade whose read mode is CLOUD, `set_read_mode LOCAL` performs
exactly cloud-stop, then local-overwrite with the cloud backend's snapshot,
then local-start, in this order and nothing else, and afterwards both the
in-memory read mode and the owned record's `read_mode` field are LOCAL;
symmetrically from LOCAL to CLOUD. -/
theorem set_read_mode_handoff_order (f g : UnifiedFireplace)
    (hf : f._read_mode = IntelliFireApiMode.CLOUD)
    (hg : g._read_mode = IntelliFireApiMode.LOCAL) :
    (UnifiedFireplace.set_read_mode noFaults f IntelliFireApiMode.LOCAL).1 =
      [CallEvent.stop_background_polling ApiSide.cloudSide,
       CallEvent.overwrite_data ApiSide.localSide f._cloud_api.data,
       CallEvent.start_background_polling ApiSide.localSide] ∧
    (UnifiedFireplace.set_read_mode noFaults f IntelliFireApiMode.LOCAL).2._read_mode =
      IntelliFireApiMode.LOCAL ∧
    (UnifiedFireplace.set_read_mode noFaults f
        IntelliFireApiMode.LOCAL).2._fireplace_data.read_mode =
      IntelliFireApiMode.LOCAL ∧
    (UnifiedFireplace.set_read_mode noFaults g IntelliFireApiMode.CLOUD).1 =
      [CallEvent.stop_background_polling ApiSide.localSide,
       CallEvent.overwrite_data ApiSide.cloudSide g._local_api.data,
       CallEvent.start_background_polling ApiSide.cloudSide] ∧
    (UnifiedFireplace.set_read_mode noFaults g IntelliFireApiMode.CLOUD).2._read_mode =
      IntelliFireApiMode.CLOUD ∧
    (UnifiedFireplace.set_read_mode noFaults g
        IntelliFireApiMode.CLOUD).2._fireplace_data.read_mode =
      IntelliFireApiMode.CLOUD := by
  simp [UnifiedFireplace.set_read_mode, UnifiedFireplace._switch_read_mode, noFaults,
    hf, hg, Backend.stop_background_polling, Backend.overwrite_data,
    Backend.start_background_polling]

/-- C1 witness: the handoff theorem applied to the two concrete sample facades. -/
theorem set_read_mode_handoff_order_witness :
    (UnifiedFireplace.set_read_mode noFaults sampleCloudFacade IntelliFireApiMode.LOCAL).1 =
      [CallEvent.stop_background_polling ApiSide.cloudSide,
       CallEvent.overwrite_data ApiSide.localSide ⟨7⟩,
       CallEvent.start_background_polling ApiSide.localSide] ∧
    (UnifiedFireplace.set_read_mode noFaults sampleLocalFacade IntelliFireApiMode.CLOUD).1 =
      [CallEvent.stop_background_polling ApiSide.localSide,
       CallEvent.overwrite_data ApiSide.cloudSide ⟨5⟩,
       CallEvent.start_background_polling ApiSide.cloudSide] :=
  ⟨(set_read_mode_handoff_order sampleCloudFacade sampleLocalFacade rfl rfl).1,
   (set_read_mode_handoff_order sampleCloudFacade sampleLocalFacade rfl rfl).2.2.2.1⟩

/-- C5: requesting the currently active read mode performs zero backend calls
and returns the facade (and its owned record) entirely unchanged. -/
theorem set_read_mode_noop (faults : FaultSpec) (f : UnifiedFireplace)
    (mode : IntelliFireApiMode) (h : f._read_mode = mode) :
    UnifiedFireplace.set_read_mode faults f mode = ([], f) := by
  simp [UnifiedFireplace.set_read_mode, h]

/-- C5 witness: the no-op theorem at the concrete local-mode sample facade. -/
theorem set_read_mode_noop_witness :
    UnifiedFireplace.set_read_mode stopFaults sampleLocalFacade IntelliFireApiMode.LOCAL =
      ([], sampleLocalFacade) :=
  set_read_mode_noop stopFaults sampleLocalFacade IntelliFireApiMode.LOCAL rfl

/-- C6: `set_control_mode m` makes no backend call, sets both the in-memory
control mode and the record's `control_mode` field to `m`, changes nothing
else (read mode, both backends, all identity fields and the record's
`read_mode` field are untouched), returns normally by construction, and
afterwards `control_api` is the backend designated by `m`. -/
theorem set_control_mode_spec (f : UnifiedFireplace) (m : IntelliFireApiMode) :
    (UnifiedFireplace.set_control_mode f m).1 = [] ∧
    (UnifiedFireplace.set_control_mode f m).2._control_mode = m ∧
    (UnifiedFireplace.set_control_mode f m).2._fireplace_data.control_mode = m ∧
    (UnifiedFireplace.set_control_mode f m).2._read_mode = f._read_mode ∧
    (UnifiedFireplace.set_control_mode f m).2._local_api = f._local_api ∧
    (UnifiedFireplace.set_control_mode f m).2._cloud_api = f._cloud_api ∧
    (UnifiedFireplace.set_control_mode f m).2._fireplace_data.ip_address =
      f._fireplace_data.ip_address ∧
    (UnifiedFireplace.set_control_mode f m).2._fireplace_data.api_key =
      f._fireplace_data.api_key ∧
    (UnifiedFireplace.set_control_mode f m).2._fireplace_data.serial =
      f._fireplace_data.serial ∧
    (UnifiedFireplace.set_control_mode f m).2._fireplace_data.auth_cookie =
      f._fireplace_data.auth_cookie ∧
    (UnifiedFireplace.set_control_mode f m).2._fireplace_data.user_id =
      f._fireplace_data.user_id ∧
    (UnifiedFireplace.set_control_mode f m).2._fireplace_data.web_client_id =
      f._fireplace_data.web_client_id ∧
    (UnifiedFireplace.set_control_mode f m).2._fireplace_data.read_mode =
      f._fireplace_data.read_mode ∧
    UnifiedFireplace.control_api (UnifiedFireplace.set_control_mode f m).2 =
      (if m = IntelliFireApiMode.LOCAL then f._local_api else f._cloud_api) := by
  simp [UnifiedFireplace.set_control_mode, UnifiedFireplace.control_api]

/-- C7: with read mode LOCAL and after `set_control_mode CLOUD`, `control_api`
is the cloud backend while `read_api` is the local backend and `data` is the
local backend's snapshot; and in general `data` always equals the snapshot of
the backend returned by `read_api`. -/
theorem control_read_independence (f : UnifiedFireplace)
    (h : f._read_mode = IntelliFireApiMode.LOCAL) :
    UnifiedFireplace.control_api
        (UnifiedFireplace.set_control_mode f IntelliFireApiMode.CLOUD).2 =
      f._cloud_api ∧
    UnifiedFireplace.read_api
        (UnifiedFireplace.set_control_mode f IntelliFireApiMode.CLOUD).2 =
      f._local_api ∧
    UnifiedFireplace.data
        (UnifiedFireplace.set_control_mode f IntelliFireApiMode.CLOUD).2 =
      f._local_api.data ∧
    ∀ g : UnifiedFireplace, UnifiedFireplace.data g = (UnifiedFireplace.read_api g).data := by
  refine ⟨?_, ?_, ?_, ?_⟩
  · simp [UnifiedFireplace.set_control_mode, UnifiedFireplace.control_api]
  · simp [UnifiedFireplace.set_control_mode, UnifiedFireplace.read_api, h]
  · simp [UnifiedFireplace.set_control_mode, UnifiedFireplace.data,
      UnifiedFireplace.read_mode, UnifiedFireplace._local_data, UnifiedFireplace._cloud_data, h]
  · intro g
    by_cases hg : g._read_mode = IntelliFireApiMode.LOCAL <;>
      simp [UnifiedFireplace.data, UnifiedFireplace.read_api, UnifiedFireplace.read_mode,
        UnifiedFireplace._local_data, UnifiedFireplace._cloud_data, hg]

/-- C7 witness: the independence theorem at the concrete local-mode sample
facade, and the general data/read_api agreement at the cloud-mode one. -/
theorem control_read_independence_witness :
    UnifiedFireplace.control_api
        (UnifiedFireplace.set_control_mode sampleLocalFacade IntelliFireApiMode.CLOUD).2 =
      sampleLocalFacade._cloud_api ∧
    UnifiedFireplace.data sampleCloudFacade =
      (UnifiedFireplace.read_api sampleCloudFacade).data :=
  ⟨(control_read_independence sampleLocalFacade rfl).1,
   (control_read_independence sampleLocalFacade rfl).2.2.2 sampleCloudFacade⟩

/-- C4: if a backend call raises during a read-mode switch initiated through
`set_read_mode`, the exception is swallowed (`set_read_mode` returns normally
by construction — its result type has no error case) and both the in-memory
read mode and the owned record's `read_mode` field keep the values they had
before the call. -/
theorem set_read_mode_swallows_failure (faults : FaultSpec) (f : UnifiedFireplace)
    (mode : IntelliFireApiMode)
    (h : (UnifiedFireplace._switch_read_mode faults f mode).raised = true) :
    (UnifiedFireplace.set_read_mode faults f mode).2._read_mode = f._read_mode ∧
    (UnifiedFireplace.set_read_mode faults f mode).2._fireplace_data.read_mode =
      f._fireplace_data.read_mode := by
  by_cases hm : f._read_mode = mode
  · simp [UnifiedFireplace.set_read_mode, hm]
  · simpa [UnifiedFireplace.set_read_mode, hm] using
      switch_raised_preserves_read_mode faults f mode h

/-- C4 witness: with a fault on start-background-polling, switching the sample
cloud facade to LOCAL raises internally, yet both read-mode fields keep their
prior values. -/
theorem set_read_mode_swallows_failure_witness :
    (UnifiedFireplace.set_read_mode startFaults sampleCloudFacade
        IntelliFireApiMode.LOCAL).2._read_mode = sampleCloudFacade._read_mode ∧
    (UnifiedFireplace.set_read_mode startFaults sampleCloudFacade
        IntelliFireApiMode.LOCAL).2._fireplace_data.read_mode =
      sampleCloudFacade._fireplace_data.read_mode :=
  set_read_mode_swallows_failure startFaults sampleCloudFacade
    IntelliFireApiMode.LOCAL (by decide)

/-- C10: with an empty fireplace collection the batch builder returns the empty
facade list, an empty per-facade trace list (so no backend call at all), under
any fault model and any requested modes. -/
theorem build_from_empty_user_data (faults : FaultSpec) (u : IntelliFireUserData)
    (r c : IntelliFireApiMode) (h : u.fireplaces = []) :
    UnifiedFireplace.build_fireplaces_from_user_data faults u r c = ([], Except.ok []) := by
  simp [UnifiedFireplace.build_fireplaces_from_user_data, h]

/-- C10 witness: the empty-batch theorem at a concrete empty user record. -/
theorem build_from_empty_user_data_witness :
    UnifiedFireplace.build_fireplaces_from_user_data stopFaults ⟨[]⟩
      IntelliFireApiMode.CLOUD IntelliFireApiMode.LOCAL = ([], Except.ok []) :=
  build_from_empty_user_data stopFaults ⟨[]⟩
    IntelliFireApiMode.CLOUD IntelliFireApiMode.LOCAL rfl

/-- Helper: with no faults, the primary builder does not raise and its trace is
exactly stop-on-the-other-side, overwrite-on-the-requested-side with the idle
backend's default snapshot, start-on-the-requested-side. -/
theorem create_noFaults_spec (fp : IntelliFireCommonFireplaceData)
    (r c : IntelliFireApiMode) :
    (UnifiedFireplace.create_async_instance noFaults fp r c).raised = false ∧
    (UnifiedFireplace.create_async_instance noFaults fp r c).trace =
      [CallEvent.stop_background_polling (sideOf (otherMode r)),
       CallEvent.overwrite_data (sideOf r) Backend.init.data,
       CallEvent.start_background_polling (sideOf r)] := by
  cases r <;>
    simp [UnifiedFireplace.create_async_instance, UnifiedFireplace.mk_raw,
      UnifiedFireplace._switch_read_mode, noFaults, sideOf, otherMode,
      Backend.init, Backend.stop_background_polling]

/-- C8: with no faults, the batch builder returns (wrapped in a success) the
list of facades obtained by the primary builder on each record with the
requested modes, in input order; there is one trace per input record, and each
per-facade trace starts polling on the backend designated by the requested
read mode exactly once and never on the other backend. -/
theorem build_from_user_data_batch (u : IntelliFireUserData)
    (r c : IntelliFireApiMode) :
    (UnifiedFireplace.build_fireplaces_from_user_data noFaults u r c).2 =
      Except.ok (u.fireplaces.map
        (fun fp => (UnifiedFireplace.create_async_instance noFaults fp r c).state)) ∧
    (UnifiedFireplace.build_fireplaces_from_user_data noFaults u r c).1.length =
      u.fireplaces.length ∧
    ∀ t ∈ (UnifiedFireplace.build_fireplaces_from_user_data noFaults u r c).1,
      t.count (CallEvent.start_background_polling (sideOf r)) = 1 ∧
      t.count (CallEvent.start_background_polling (sideOf (otherMode r))) = 0 := by
  have hall : (u.fireplaces.map
      (fun fp => UnifiedFireplace.create_async_instance noFaults fp r c)).all
      (fun x => !x.raised) = true := by
    rw [List.all_eq_true]
    intro x hx
    rw [List.mem_map] at hx
    obtain ⟨fp, _, rfl⟩ := hx
    simp [(create_noFaults_spec fp r c).1]
  refine ⟨?_, ?_, ?_⟩
  · simp [UnifiedFireplace.build_fireplaces_from_user_data, hall, List.map_map,
      Function.comp]
  · simp [UnifiedFireplace.build_fireplaces_from_user_data]
  · intro t ht
    simp only [UnifiedFireplace.build_fireplaces_from_user_data, List.map_map,
      List.mem_map, Function.comp] at ht
    obtain ⟨fp, _, rfl⟩ := ht
    rw [(create_noFaults_spec fp r c).2]
    cases r <;> simp [sideOf, otherMode]

/-- C8 witness: the batch theorem at a one-record user record, including the
per-facade start-polling count extracted through the membership hypothesis. -/
theorem build_from_user_data_batch_witness :
    (UnifiedFireplace.build_fireplaces_from_user_data noFaults ⟨[sampleRecord]⟩
        IntelliFireApiMode.LOCAL IntelliFireApiMode.CLOUD).2 =
      Except.ok [(UnifiedFireplace.create_async_instance noFaults sampleRecord
        IntelliFireApiMode.LOCAL IntelliFireApiMode.CLOUD).state] ∧
    ([CallEvent.stop_background_polling ApiSide.cloudSide,
      CallEvent.overwrite_data ApiSide.localSide ⟨0⟩,
      CallEvent.start_background_polling ApiSide.localSide].count
        (CallEvent.start_background_polling (sideOf IntelliFireApiMode.LOCAL)) = 1) :=
  ⟨(build_from_user_data_batch ⟨[sampleRecord]⟩
      IntelliFireApiMode.LOCAL IntelliFireApiMode.CLOUD).1,
   ((build_from_user_data_batch ⟨[sampleRecord]⟩
      IntelliFireApiMode.LOCAL IntelliFireApiMode.CLOUD).2.2
     [CallEvent.stop_background_polling ApiSide.cloudSide,
      CallEvent.overwrite_data ApiSide.localSide ⟨0⟩,
      CallEvent.start_background_polling ApiSide.localSide] (by decide)).1⟩

/-- C9: if the primary-builder construction of any single record raises (for
instance a backend call failing during the initial activation, which
`create_async_instance` does not wrap in any handler), the batch builder
returns the error and no partial facade list. -/
theorem batch_failure_propagates (faults : FaultSpec) (u : IntelliFireUserData)
    (r c : IntelliFireApiMode)
    (h : ∃ fp ∈ u.fireplaces,
      (UnifiedFireplace.create_async_instance faults fp r c).raised = true) :
    (UnifiedFireplace.build_fireplaces_from_user_data faults u r c).2 =
      Except.error () := by
  obtain ⟨fp, hmem, hr⟩ := h
  have hnot : ¬ ((u.fireplaces.map
      (fun x => UnifiedFireplace.create_async_instance faults x r c)).all
      (fun x => !x.raised) = true) := by
    rw [List.all_eq_true]
    intro hall
    have := hall _ (List.mem_map.mpr ⟨fp, hmem, rfl⟩)
    simp [hr] at this
  simp only [UnifiedFireplace.build_fireplaces_from_user_data]
  rw [if_neg hnot]

/-- C9 witness: with a fault on stop-background-polling, a one-record batch
fails as a whole. -/
theorem batch_failure_propagates_witness :
    (UnifiedFireplace.build_fireplaces_from_user_data stopFaults ⟨[sampleRecord]⟩
        IntelliFireApiMode.LOCAL IntelliFireApiMode.LOCAL).2 = Except.error () :=
  batch_failure_propagates stopFaults ⟨[sampleRecord]⟩
    IntelliFireApiMode.LOCAL IntelliFireApiMode.LOCAL
    ⟨sampleRecord, by decide, by decide⟩

/-- C2: evaluation at the failing input.  `build_fireplace_direct` with
requested control mode CLOUD succeeds, yet the returned facade's in-memory
control mode is LOCAL while the owned record's `control_mode` field is CLOUD:
the mirror invariant between the facade's active modes and the record's mode
fields does not hold after this builder. -/
theorem direct_builder_mirror_violation :
    (UnifiedFireplace.build_fireplace_direct noFaults "10.0.0.5" "abc" "SN1" "CK1" "U1" "W1"
        IntelliFireApiMode.LOCAL IntelliFireApiMode.CLOUD).raised = false ∧
    (UnifiedFireplace.build_fireplace_direct noFaults "10.0.0.5" "abc" "SN1" "CK1" "U1" "W1"
        IntelliFireApiMode.LOCAL IntelliFireApiMode.CLOUD).state._control_mode =
      IntelliFireApiMode.LOCAL ∧
    (UnifiedFireplace.build_fireplace_direct noFaults "10.0.0.5" "abc" "SN1" "CK1" "U1" "W1"
        IntelliFireApiMode.LOCAL
        IntelliFireApiMode.CLOUD).state._fireplace_data.control_mode =
      IntelliFireApiMode.CLOUD :=
  ⟨rfl, rfl, rfl⟩

/-- C3: evaluation at the failing input.  `build_fireplace_direct` with
requested modes CLOUD/CLOUD returns a facade whose in-memory read and control
modes are both LOCAL, and whose initial activation polled the local backend —
the requested modes are embedded in the record but never forwarded to
`create_async_instance`, whose LOCAL defaults apply instead. -/
theorem direct_builder_ignores_requested_modes :
    (UnifiedFireplace.build_fireplace_direct noFaults "10.0.0.5" "abc" "SN1" "CK1" "U1" "W1"
        IntelliFireApiMode.CLOUD IntelliFireApiMode.CLOUD).state._read_mode =
      IntelliFireApiMode.LOCAL ∧
    (UnifiedFireplace.build_fireplace_direct noFaults "10.0.0.5" "abc" "SN1" "CK1" "U1" "W1"
        IntelliFireApiMode.CLOUD IntelliFireApiMode.CLOUD).state._control_mode =
      IntelliFireApiMode.LOCAL ∧
    (UnifiedFireplace.build_fireplace_direct noFaults "10.0.0.5" "abc" "SN1" "CK1" "U1" "W1"
        IntelliFireApiMode.CLOUD IntelliFireApiMode.CLOUD).trace =
      [CallEvent.stop_background_polling ApiSide.cloudSide,
       CallEvent.overwrite_data ApiSide.localSide ⟨0⟩,
       CallEvent.start_background_polling ApiSide.localSide] :=
  ⟨rfl, rfl, rfl⟩
